import Mathlib

/-!
Verification of the chirpy TTS subsystem (`tts_service.py`).

The development shallowly embeds the cache layer (`OpenAITTSProvider`'s
cache helpers), the two providers' `speak_text` entry points, and the
`EnhancedTTSService` coordinator.  Filesystem state is modelled as a list
of files, each carrying a name, a last-modified time (rational seconds),
a size in bytes, and two fault flags saying whether a `stat` or an
`unlink` on that file succeeds; operations that the Python code leaves
unguarded (so that an `OSError` escapes them) are embedded in `Except`.
-/

namespace Chirpy

/-- `OpenAITTSProvider._get_cache_key` builds the string
`f"{text}|{voice}|{model}|{speed}"` and returns its MD5 hex digest.  We
embed the pre-hash content string (`speed` already rendered to its
decimal form, which is injective on floats); the digest is a function of
this string, so equal contents force equal keys, and the spec's
collision-freeness argument is exactly injectivity of this content. -/
def get_cache_key_content (text voice model speed : String) : String :=
  text ++ "|" ++ voice ++ "|" ++ model ++ "|" ++ speed

/-- A field is separator-free when the join character `|` of
`_get_cache_key` does not occur in it. -/
def sep_free (s : String) : Prop := '|' ∉ s.data

instance (s : String) : Decidable (sep_free s) := by
  unfold sep_free; infer_instance

/-- A file in the cache directory.  `mtime` is its last-modified time in
seconds (floats are embedded as rationals), `size` its byte count
(`st_size`).  `statOk` and `unlinkOk` record whether `stat()` and
`unlink()` on this file succeed or raise `OSError`. -/
structure CacheFile where
  name : String
  mtime : ℚ
  size : ℕ
  statOk : Bool
  unlinkOk : Bool
deriving DecidableEq, Repr

/-- The fields of `ChirpyConfig` (from `config.py`) consumed by the TTS
subsystem, with their source defaults. -/
structure ChirpyConfig where
  tts_quality : String := "hd"
  openai_tts_voice : String := "nova"
  audio_format : String := "mp3"
  tts_speed_multiplier : ℚ := 1
  audio_cache_max_size_mb : ℕ := 100
  audio_cache_max_age_days : ℕ := 30
  audio_cache_cleanup_on_startup : Bool := true
  audio_cache_cleanup_threshold : ℚ := 8/10
deriving DecidableEq, Repr

/-- Whether a file is picked up by the `glob("*.mp3")` calls: its name
ends in `.mp3`. -/
def isMp3 (f : CacheFile) : Bool := ".mp3".data.isSuffixOf f.name.data

/-- `OpenAITTSProvider._get_cached_audio`.  Returns the cache file for
`cache_key` if it exists and is younger than a hardcoded 30 days;
an older file is unlinked (failures logged and swallowed) and `none` is
returned.  The `stat()` call on line 116 of the source is outside any
`try`, so a failing stat raises out of the function: that is the
`.error` case.  The second component is the directory after the call. -/
def get_cached_audio (now : ℚ) (dir : List CacheFile) (cache_key : String) :
    Except Unit (Option CacheFile × List CacheFile) :=
  match dir.find? (fun f => f.name = cache_key ++ ".mp3") with
  | none => .ok (none, dir)
  | some f =>
    if f.statOk then
      if now - f.mtime < 30 * 24 * 3600 then .ok (some f, dir)
      else if f.unlinkOk then
        .ok (none, dir.filter (fun g => g.name ≠ cache_key ++ ".mp3"))
      else .ok (none, dir)
    else .error ()

/-- `OpenAITTSProvider._get_cache_size_mb`: total `st_size` over
`glob("*.mp3")`, skipping files whose stat fails, divided by 1024². -/
def get_cache_size_mb (dir : List CacheFile) : ℚ :=
  (((dir.filter (fun f => isMp3 f && f.statOk)).map
      (fun f => (f.size : ℚ))).sum) / (1024 * 1024)

/-- The deletion loop of `OpenAITTSProvider._cleanup_by_size`: walk the
mtime-sorted candidates, stop once `current_size` is at or below the
target, otherwise unlink (a failed unlink is logged, skipped, and does
not decrease `current_size`).  Returns the names removed. -/
def evict_loop (target_size_mb : ℚ) : ℚ → List CacheFile → List String
  | _, [] => []
  | current_size, f :: rest =>
    if current_size ≤ target_size_mb then []
    else if f.unlinkOk then
      f.name :: evict_loop target_size_mb
        (current_size - (f.size : ℚ) / (1024 * 1024)) rest
    else evict_loop target_size_mb current_size rest

/-- The stat-and-sort preamble of `_cleanup_by_size`: the `*.mp3` files
whose stat succeeds, sorted by modification time, oldest first. -/
def size_candidates (dir : List CacheFile) : List CacheFile :=
  (dir.filter (fun f => isMp3 f && f.statOk)).mergeSort
    (fun a b => a.mtime ≤ b.mtime)

/-- `OpenAITTSProvider._cleanup_by_size`: remove oldest cache files until
the cumulative remaining size is within `target_size_mb`. -/
def cleanup_by_size (target_size_mb : ℚ) (dir : List CacheFile) :
    List CacheFile :=
  let cache_files := size_candidates dir
  let current_size : ℚ :=
    ((cache_files.map (fun f => (f.size : ℚ))).sum) / (1024 * 1024)
  let removed := evict_loop target_size_mb current_size cache_files
  dir.filter (fun f => ¬ f.name ∈ removed)

/-- `OpenAITTSProvider._check_cache_size_limits`: trigger `_cleanup_by_size`
with target `audio_cache_max_size_mb` when the current size exceeds
`max_size * cleanup_threshold`. -/
def check_cache_size_limits (cfg : ChirpyConfig) (dir : List CacheFile) :
    List CacheFile :=
  let current_size := get_cache_size_mb dir
  let max_size : ℚ := cfg.audio_cache_max_size_mb
  let threshold_size := max_size * cfg.audio_cache_cleanup_threshold
  if current_size > threshold_size then cleanup_by_size max_size dir
  else dir

/-- `OpenAITTSProvider._save_to_cache`: write `audio_data` to
`{cache_key}.mp3` (the `open`/`write` is unguarded, so a write failure
raises: the `.error` case), then run the size check.  Overwrites an
existing file of the same name; the new file's mtime is `now`. -/
def save_to_cache (cfg : ChirpyConfig) (writeOk : Bool) (now : ℚ)
    (dir : List CacheFile) (cache_key : String) (data_size : ℕ) :
    Except Unit (CacheFile × List CacheFile) :=
  if writeOk then
    let cache_file : CacheFile :=
      ⟨cache_key ++ ".mp3", now, data_size, true, true⟩
    let dir₁ := dir.filter (fun g => g.name ≠ cache_file.name) ++ [cache_file]
    .ok (cache_file, check_cache_size_limits cfg dir₁)
  else .error ()

/-- `OpenAITTSProvider._cleanup_expired_cache`: for each `*.mp3` file,
inside a per-file `try`, stat it and unlink it when its age exceeds
`audio_cache_max_age_days` (in seconds); a per-file `OSError` skips just
that file.  Returns the directory after the sweep. -/
def cleanup_expired_cache (cfg : ChirpyConfig) (now : ℚ)
    (dir : List CacheFile) : List CacheFile :=
  let max_age_seconds : ℚ := (cfg.audio_cache_max_age_days : ℚ) * 24 * 3600
  dir.filter (fun f =>
    ¬ (isMp3 f ∧ f.statOk ∧ now - f.mtime > max_age_seconds ∧ f.unlinkOk))

/-- `OpenAITTSProvider.get_cache_stats`: `total_files` counts every
`*.mp3` file (before any stat), `total_size_mb` and the oldest age skip
files whose stat fails. -/
def get_cache_stats (now : ℚ) (dir : List CacheFile) : ℕ × ℚ × ℚ :=
  let cache_files := dir.filter (fun f => isMp3 f)
  let total_files := cache_files.length
  if total_files = 0 then (0, 0, 0)
  else
    let statted := cache_files.filter (fun f => f.statOk)
    let total_size : ℚ := ((statted.map (fun f => (f.size : ℚ))).sum)
    let oldest_time := ((statted.map (fun f => f.mtime)).foldl min now)
    (total_files, total_size / (1024 * 1024), (now - oldest_time) / (24 * 3600))

/-- `OpenAITTSProvider.clear_cache`: unlink every `*.mp3` file inside a
per-file `try`; returns the number removed and the directory after. -/
def clear_cache (dir : List CacheFile) : ℕ × List CacheFile :=
  ((dir.filter (fun f => isMp3 f && f.unlinkOk)).length,
   dir.filter (fun f => ¬ (isMp3 f ∧ f.unlinkOk)))

/-- Observable effects of a provider `speak_text` call: the cache
lookup, the remote synthesis API call, the cache write, the handoff of a
file to the audio player, and the local engine invocation. -/
inductive Ev where
  | checkCache (key : String)
  | apiCall (model voice text fmt : String) (speed : ℚ)
  | saveCache (key : String)
  | play (file : String)
  | engine (text : String)
deriving DecidableEq, Repr

/-- Outcomes of the effectful collaborators of
`OpenAITTSProvider.speak_text`: whether the client was initialized,
whether the synthesis API call returns or raises, the byte count of the
returned payload, whether the cache write succeeds, and whether
`_play_audio_file` returns or raises. -/
structure OpenAIEnv where
  available : Bool
  synthOk : Bool
  synthSize : ℕ
  writeOk : Bool
  playOk : Bool
deriving DecidableEq, Repr

/-- Python's `not text.strip()`: the text is empty or whitespace-only. -/
def isBlank (text : String) : Bool :=
  text.data.all (fun c => c.isWhitespace)

/-- `voice or self.config.openai_tts_voice or OpenAIVoice.ALLOY.value`
with Python truthiness (`None` and `""` are falsy). -/
def resolve_voice (voice : Option String) (cfg_voice : String) : String :=
  match voice with
  | some v => if v ≠ "" then v else if cfg_voice ≠ "" then cfg_voice else "alloy"
  | none => if cfg_voice ≠ "" then cfg_voice else "alloy"

/-- `self.config.tts_speed_multiplier or 1.0` (Python: `0.0` is falsy). -/
def resolve_speed (m : ℚ) : ℚ := if m = 0 then 1 else m

/-- The decimal rendering of the speed used in `f"{speed}"`; distinct
speeds render to distinct strings. -/
def render_speed (s : ℚ) : String := toString s

/-- The effective voice of an `OpenAITTSProvider.speak_text` call. -/
def effective_voice (cfg : ChirpyConfig) (voice : Option String) : String :=
  resolve_voice voice cfg.openai_tts_voice

/-- `model = "tts-1-hd" if self.config.tts_quality == "hd" else "tts-1"`. -/
def effective_model (cfg : ChirpyConfig) : String :=
  if cfg.tts_quality = "hd" then "tts-1-hd" else "tts-1"

/-- The effective speed multiplier. -/
def effective_speed (cfg : ChirpyConfig) : ℚ :=
  resolve_speed cfg.tts_speed_multiplier

/-- `audio_format = self.config.audio_format or "mp3"`. -/
def effective_format (cfg : ChirpyConfig) : String :=
  if cfg.audio_format = "" then "mp3" else cfg.audio_format

/-- The cache key computed by a `speak_text` call (pre-hash content). -/
def effective_cache_key (cfg : ChirpyConfig) (text : String)
    (voice : Option String) : String :=
  get_cache_key_content text (effective_voice cfg voice) (effective_model cfg)
    (render_speed (effective_speed cfg))

/-- `OpenAITTSProvider.speak_text`: availability gate, blank-text gate,
cache lookup, on a miss the API call, cache write and playback, on a hit
playback of the cached file.  Any exception inside the `try` (a stat
raising out of `_get_cached_audio`, the API call, the unguarded cache
write, or `_play_audio_file`) is caught by the outer handler, which
returns `False`.  Returns (result, directory after, effect trace). -/
def openai_speak_text (cfg : ChirpyConfig) (env : OpenAIEnv) (now : ℚ)
    (dir : List CacheFile) (text : String) (voice : Option String) :
    Bool × List CacheFile × List Ev :=
  if env.available = false then (false, dir, [])
  else if isBlank text then (true, dir, [])
  else
    let voice_name := effective_voice cfg voice
    let model := effective_model cfg
    let speed := effective_speed cfg
    let cache_key := effective_cache_key cfg text voice
    match get_cached_audio now dir cache_key with
    | .error _ => (false, dir, [.checkCache cache_key])
    | .ok (some cached_file, dir₁) =>
      (env.playOk, dir₁, [.checkCache cache_key, .play cached_file.name])
    | .ok (none, dir₁) =>
      let audio_format := effective_format cfg
      if env.synthOk = false then
        (false, dir₁,
         [.checkCache cache_key, .apiCall model voice_name text audio_format speed])
      else
        match save_to_cache cfg env.writeOk now dir₁ cache_key env.synthSize with
        | .error _ =>
          (false, dir₁,
           [.checkCache cache_key, .apiCall model voice_name text audio_format speed])
        | .ok (cached_file, dir₂) =>
          (env.playOk, dir₂,
           [.checkCache cache_key, .apiCall model voice_name text audio_format speed,
            .saveCache cache_key, .play cached_file.name])

/-- Outcome of the local synthesis engine (pyttsx3 or the `say`
subprocess): `True` when it runs to completion, exceptions are caught
and turn into `False`. -/
structure SystemEnv where
  engineOk : Bool
deriving DecidableEq, Repr

/-- `SystemTTSProvider.speak_text`: blank-text gate, then one engine
invocation whose failure is caught and returned as `False`. -/
def system_speak_text (env : SystemEnv) (text : String) : Bool × List Ev :=
  if isBlank text then (true, [])
  else (env.engineOk, [.engine text])

/-- The three quality tiers of `TTSQuality`. -/
inductive TTSQuality where
  | basic
  | standard
  | hd
deriving DecidableEq, Repr, Fintype

/-- The two concrete provider classes. -/
inductive ProviderKind where
  | system
  | openai
deriving DecidableEq, Repr, Fintype

/-- The registry built by `EnhancedTTSService.__init__`: `BASIC` always
maps to the system provider; `STANDARD` and `HD` map to the (single)
OpenAI provider exactly when it is available. -/
def mk_providers (openai_available : Bool) : TTSQuality → Option ProviderKind :=
  fun q =>
    match q with
    | .basic => some .system
    | .standard => if openai_available then some .openai else none
    | .hd => if openai_available then some .openai else none

/-- The fixed fallback order of `_get_best_available_provider`. -/
def fallback_order : List TTSQuality := [.hd, .standard, .basic]

/-- `EnhancedTTSService._get_best_available_provider`: the provider for
`current_quality` when registered, else the first registered tier of
`fallback_order`; `none` models the `RuntimeError` branch. -/
def get_best_available_provider (providers : TTSQuality → Option ProviderKind)
    (current_quality : TTSQuality) : Option ProviderKind :=
  match providers current_quality with
  | some p => some p
  | none =>
    match fallback_order.find? (fun q => (providers q).isSome) with
    | some q => providers q
    | none => none

/-- The mutable state of `EnhancedTTSService`. -/
structure Coordinator where
  providers : TTSQuality → Option ProviderKind
  current_quality : TTSQuality
  current_provider : ProviderKind

/-- Outcomes of the providers' `speak_text` as the coordinator sees
them. -/
structure CoordEnv where
  speakOk : ProviderKind → String → Bool

/-- `EnhancedTTSService.speak_text`: blank-text gate; one call to the
current provider; if it fails and the current quality is not `BASIC`,
one call to `providers[BASIC]` whose result is returned (the dict lookup
would raise `KeyError` if `BASIC` were absent: the `.error` case).
Returns the result together with the list of provider calls made. -/
def service_speak_text (c : Coordinator) (env : CoordEnv) (text : String) :
    Except Unit (Bool × List (ProviderKind × String)) :=
  if isBlank text then .ok (true, [])
  else
    let success := env.speakOk c.current_provider text
    if success = false ∧ c.current_quality ≠ TTSQuality.basic then
      match c.providers TTSQuality.basic with
      | some p => .ok (env.speakOk p text, [(c.current_provider, text), (p, text)])
      | none => .error ()
    else .ok (success, [(c.current_provider, text)])

/-- `EnhancedTTSService.set_quality`: switch quality and provider iff
the tier is registered, else report failure and change nothing. -/
def set_quality (c : Coordinator) (q : TTSQuality) : Bool × Coordinator :=
  match c.providers q with
  | some p => (true, { c with current_quality := q, current_provider := p })
  | none => (false, c)

/-- `EnhancedTTSService.get_available_qualities`: the registry's keys
(in the dict's insertion order `BASIC, STANDARD, HD`). -/
def get_available_qualities (c : Coordinator) : List TTSQuality :=
  [TTSQuality.basic, TTSQuality.standard, TTSQuality.hd].filter
    (fun q => (c.providers q).isSome)

/-- The `current_size` bookkeeping quantity of `_cleanup_by_size`: total
bytes of a file list, in megabytes. -/
def mbOf (l : List CacheFile) : ℚ :=
  ((l.map fun f => (f.size : ℚ)).sum) / (1024 * 1024)

/-!  ## Theorems  -/

/-- Splitting at a separator that occurs in neither left part is
unambiguous. -/
theorem append_sep_cancel (sep : Char) :
    ∀ (a b x y : List Char), sep ∉ a → sep ∉ b →
      a ++ sep :: x = b ++ sep :: y → a = b ∧ x = y := by
  intro a
  induction a with
  | nil =>
    intro b x y _ hb h
    cases b with
    | nil => simpa using h
    | cons d ds =>
      simp only [List.nil_append, List.cons_append, List.cons.injEq] at h
      exact absurd (h.1 ▸ List.mem_cons_self d ds) hb
  | cons c cs ih =>
    intro b x y ha hb h
    cases b with
    | nil =>
      simp only [List.nil_append, List.cons_append, List.cons.injEq] at h
      exact absurd (h.1.symm ▸ List.mem_cons_self c cs) ha
    | cons d ds =>
      simp only [List.cons_append, List.cons.injEq] at h
      obtain ⟨rfl, h2⟩ := h
      have hrec := ih ds x y (fun hm => ha (List.mem_cons_of_mem _ hm))
        (fun hm => hb (List.mem_cons_of_mem _ hm)) h2
      exact ⟨by rw [hrec.1], hrec.2⟩

theorem get_cache_key_content_data (t v m s : String) :
    (get_cache_key_content t v m s).data =
      t.data ++ '|' :: (v.data ++ '|' :: (m.data ++ '|' :: s.data)) := by
  simp [get_cache_key_content, String.data_append]

/-- Injectivity of the pre-hash content on separator-free fields. -/
theorem get_cache_key_content_inj
    (t₁ v₁ m₁ s₁ t₂ v₂ m₂ s₂ : String)
    (ht₁ : sep_free t₁) (hv₁ : sep_free v₁) (hm₁ : sep_free m₁)
    (ht₂ : sep_free t₂) (hv₂ : sep_free v₂) (hm₂ : sep_free m₂)
    (h : get_cache_key_content t₁ v₁ m₁ s₁ = get_cache_key_content t₂ v₂ m₂ s₂) :
    t₁ = t₂ ∧ v₁ = v₂ ∧ m₁ = m₂ ∧ s₁ = s₂ := by
  have hd : (get_cache_key_content t₁ v₁ m₁ s₁).data =
      (get_cache_key_content t₂ v₂ m₂ s₂).data := by rw [h]
  rw [get_cache_key_content_data, get_cache_key_content_data] at hd
  obtain ⟨e1, hd⟩ := append_sep_cancel '|' _ _ _ _ ht₁ ht₂ hd
  obtain ⟨e2, hd⟩ := append_sep_cancel '|' _ _ _ _ hv₁ hv₂ hd
  obtain ⟨e3, e4⟩ := append_sep_cancel '|' _ _ _ _ hm₁ hm₂ hd
  exact ⟨String.ext e1, String.ext e2, String.ext e3, String.ext e4⟩

/-- **C1** (counterexample): the separator `|` *can* occur inside a
field, so two distinct 4-tuples — `("a|b","c",...)` and `("a","b|c",...)`
— produce the same pre-hash content and hence the same MD5 key; the
claim that any two distinct tuples yield different keys is false. -/
theorem cache_key_collision_counterexample :
    (("a|b" : String), ("c" : String), ("m" : String), ("1.0" : String)) ≠
      (("a" : String), ("b|c" : String), ("m" : String), ("1.0" : String)) ∧
    get_cache_key_content "a|b" "c" "m" "1.0" =
      get_cache_key_content "a" "b|c" "m" "1.0" := by
  exact ⟨by decide, by decide⟩

/-- **C1** (amended): `_get_cache_key` is deterministic — identical
arguments give identical pre-hash contents and hence identical keys —
and it is collision-free across distinct 4-tuples *provided* the join
character `|` does not occur inside the text, voice, or model field
(the code joins with `|`, which can occur inside a field, so the
unrestricted claim fails: see the counterexample). -/
theorem cache_key_deterministic_and_injective
    (t₁ v₁ m₁ s₁ t₂ v₂ m₂ s₂ : String)
    (ht₁ : sep_free t₁) (hv₁ : sep_free v₁) (hm₁ : sep_free m₁)
    (ht₂ : sep_free t₂) (hv₂ : sep_free v₂) (hm₂ : sep_free m₂) :
    (t₁ = t₂ → v₁ = v₂ → m₁ = m₂ → s₁ = s₂ →
      get_cache_key_content t₁ v₁ m₁ s₁ = get_cache_key_content t₂ v₂ m₂ s₂) ∧
    ((t₁, v₁, m₁, s₁) ≠ (t₂, v₂, m₂, s₂) →
      get_cache_key_content t₁ v₁ m₁ s₁ ≠ get_cache_key_content t₂ v₂ m₂ s₂) := by
  constructor
  · rintro rfl rfl rfl rfl
    rfl
  · intro hne heq
    obtain ⟨e1, e2, e3, e4⟩ :=
      get_cache_key_content_inj t₁ v₁ m₁ s₁ t₂ v₂ m₂ s₂ ht₁ hv₁ hm₁ ht₂ hv₂ hm₂ heq
    exact hne (by rw [e1, e2, e3, e4])

/-- **C1** witness: the amended theorem at concrete separator-free
inputs distinguishes `("ab","c")` from `("a","bc")`. -/
theorem cache_key_deterministic_and_injective_witness :
    get_cache_key_content "ab" "c" "m" "1.0" ≠
      get_cache_key_content "a" "bc" "m" "1.0" :=
  (cache_key_deterministic_and_injective "ab" "c" "m" "1.0" "a" "bc" "m" "1.0"
    (by decide) (by decide) (by decide) (by decide) (by decide) (by decide)).2
    (by decide)

/-- **C9**: provider resolution is total whenever `BASIC` is registered:
a registered `current_quality` resolves to its own provider, an
unregistered one resolves to the first registered tier of the fixed
order `[HD, Standard, Basic]`, and the `RuntimeError` branch (`none`)
is unreachable; the constructor unconditionally registers the system
provider under `BASIC`. -/
theorem get_best_available_provider_total
    (reg : TTSQuality → Option ProviderKind) (cq : TTSQuality)
    (hbasic : (reg TTSQuality.basic).isSome = true) :
    (∀ p, reg cq = some p → get_best_available_provider reg cq = some p) ∧
    (reg cq = none →
      ∃ q, fallback_order.find? (fun q' => (reg q').isSome) = some q ∧
        get_best_available_provider reg cq = reg q ∧ (reg q).isSome = true) ∧
    (get_best_available_provider reg cq).isSome = true ∧
    (∀ avail : Bool, mk_providers avail TTSQuality.basic = some ProviderKind.system) := by
  revert hbasic
  cases cq <;> cases hb : reg TTSQuality.basic <;>
    cases hs : reg TTSQuality.standard <;> cases hh : reg TTSQuality.hd <;>
    simp_all [get_best_available_provider, fallback_order, mk_providers,
      List.find?]

/-- **C9** witness: with no OpenAI key and quality HD, resolution still
succeeds (falling back to the system provider). -/
theorem get_best_available_provider_total_witness :
    (get_best_available_provider (mk_providers false) TTSQuality.hd).isSome = true :=
  (get_best_available_provider_total (mk_providers false) TTSQuality.hd
    (by decide)).2.2.1

/-- **C7**: `set_quality` succeeds and switches both `current_quality`
and `current_provider` iff the tier is registered; on an unregistered
tier it returns `False` and leaves the whole state — hence the
available qualities and the provider used by a subsequent
`speak_text` — unchanged. -/
theorem set_quality_registry_iff (c : Coordinator) (q : TTSQuality) :
    ((set_quality c q).1 = true ↔ (c.providers q).isSome = true) ∧
    (∀ p, c.providers q = some p →
      (set_quality c q).2.current_quality = q ∧
      (set_quality c q).2.current_provider = p ∧
      (set_quality c q).2.providers = c.providers) ∧
    (c.providers q = none →
      (set_quality c q).1 = false ∧
      (set_quality c q).2 = c ∧
      get_available_qualities (set_quality c q).2 = get_available_qualities c ∧
      (∀ env text, service_speak_text (set_quality c q).2 env text =
        service_speak_text c env text)) := by
  cases h : c.providers q <;> simp [set_quality, h]

/-- **C7** witness: with only `BASIC` registered, `set_quality HD` fails
and leaves the coordinator unchanged. -/
theorem set_quality_registry_iff_witness :
    (set_quality ⟨mk_providers false, TTSQuality.basic, ProviderKind.system⟩
        TTSQuality.hd).1 = false ∧
    (set_quality ⟨mk_providers false, TTSQuality.basic, ProviderKind.system⟩
        TTSQuality.hd).2 =
      ⟨mk_providers false, TTSQuality.basic, ProviderKind.system⟩ := by
  have h := ((set_quality_registry_iff
    ⟨mk_providers false, TTSQuality.basic, ProviderKind.system⟩
    TTSQuality.hd).2.2 (by decide))
  exact ⟨h.1, h.2.1⟩

/-- **C3** (counterexample): with quality HD configured but no OpenAI
key, `__init__` keeps `current_quality = HD` while resolution makes the
*system* (Basic) provider current; when it fails, the fallback branch
calls `providers[BASIC]` — the same provider — a second time, so the
Basic provider is called twice, not exactly once. -/
theorem coordinator_fallback_counterexample :
    service_speak_text ⟨mk_providers false, TTSQuality.hd, ProviderKind.system⟩
        ⟨fun _ _ => false⟩ "hello" =
      Except.ok (false,
        [(ProviderKind.system, "hello"), (ProviderKind.system, "hello")]) ∧
    [(ProviderKind.system, "hello"), (ProviderKind.system, "hello")].count
        (ProviderKind.system, "hello") = 2 := by
  exact ⟨rfl, by decide⟩

/-- **C3** (amended): when the current provider is the *paid* provider
(the case whenever Standard/HD is registered), a failed `speak_text`
with quality Standard or HD makes the coordinator call the Basic
provider exactly once and return its result, never re-calling the paid
provider; with quality Basic a failure is returned as-is with no second
call.  (If quality is Standard/HD but the paid provider is unregistered,
the current provider is itself the Basic one and receives a second call:
see the counterexample.) -/
theorem coordinator_one_shot_fallback (c : Coordinator) (env : CoordEnv)
    (text : String) (ht : isBlank text = false)
    (hbasic : c.providers TTSQuality.basic = some ProviderKind.system)
    (hfail : env.speakOk c.current_provider text = false) :
    (c.current_quality ≠ TTSQuality.basic →
      c.current_provider = ProviderKind.openai →
      service_speak_text c env text =
        Except.ok (env.speakOk ProviderKind.system text,
          [(ProviderKind.openai, text), (ProviderKind.system, text)])) ∧
    (c.current_quality = TTSQuality.basic →
      service_speak_text c env text =
        Except.ok (false, [(c.current_provider, text)])) := by
  constructor
  · intro hq hp
    rw [hp] at hfail
    simp [service_speak_text, ht, hfail, hq, hbasic, hp]
  · intro hq
    simp [service_speak_text, ht, hfail, hq]

/-- **C3** witness: quality HD, paid provider current and failing, the
system provider succeeding — the coordinator returns the system
provider's result after exactly one call to each. -/
theorem coordinator_one_shot_fallback_witness :
    service_speak_text ⟨mk_providers true, TTSQuality.hd, ProviderKind.openai⟩
        ⟨fun p _ => p == ProviderKind.system⟩ "hi" =
      Except.ok (true, [(ProviderKind.openai, "hi"), (ProviderKind.system, "hi")]) := by
  have h := (coordinator_one_shot_fallback
    ⟨mk_providers true, TTSQuality.hd, ProviderKind.openai⟩
    ⟨fun p _ => p == ProviderKind.system⟩ "hi"
    (by decide) (by decide) (by decide)).1 (by decide) rfl
  simpa using h

/-- **C6** (counterexample): `OpenAITTSProvider.speak_text` checks
availability *before* the blank-text check, so with no client the call
`speak_text("")` returns `False`, not `True` — the claim fails for the
paid provider when it is unavailable (it still makes no network call). -/
theorem speak_blank_unavailable_counterexample :
    isBlank "" = true ∧
    openai_speak_text {} ⟨false, true, 0, true, true⟩ 0 [] "" none =
      (false, [], []) := by
  exact ⟨rfl, rfl⟩

/-- **C6** (amended): on empty or whitespace-only text, the system
provider and the coordinator return `True` without invoking any engine
or provider, and the paid provider makes no cache/network/playback call
either — returning `True` when its client is available but `False` when
it is not (its availability gate precedes the blank-text gate). -/
theorem speak_blank_no_op (cfg : ChirpyConfig) (envO : OpenAIEnv)
    (envS : SystemEnv) (c : Coordinator) (envC : CoordEnv) (now : ℚ)
    (dir : List CacheFile) (text : String) (voice : Option String)
    (hb : isBlank text = true) :
    system_speak_text envS text = (true, []) ∧
    service_speak_text c envC text = Except.ok (true, []) ∧
    (envO.available = true →
      openai_speak_text cfg envO now dir text voice = (true, dir, [])) ∧
    (envO.available = false →
      openai_speak_text cfg envO now dir text voice = (false, dir, [])) := by
  refine ⟨?_, ?_, ?_, ?_⟩
  · simp [system_speak_text, hb]
  · simp [service_speak_text, hb]
  · intro hav
    simp [openai_speak_text, hb, hav]
  · intro hav
    simp [openai_speak_text, hb, hav]

/-- **C6** witness: the whitespace-only text `"   "` is a no-op success
for the system provider. -/
theorem speak_blank_no_op_witness :
    system_speak_text ⟨false⟩ "   " = (true, []) :=
  (speak_blank_no_op {} ⟨true, true, 0, true, true⟩ ⟨false⟩
    ⟨mk_providers false, TTSQuality.basic, ProviderKind.system⟩
    ⟨fun _ _ => false⟩ 0 [] "   " none (by decide)).1

/-- **C2** (counterexample): `_get_cached_audio` compares the file age
against a hardcoded 30 days, not `audio_cache_max_age_days`.  With the
configured max age set to 1 day and a 2-day-old file, `get` still
returns the payload (the claim demands deletion and absence), while the
proactive sweep — which does use the configured value — removes it. -/
theorem get_cached_audio_hardcoded_age_counterexample :
    ((172800 : ℚ) - 0 >
      ((({ audio_cache_max_age_days := 1 } : ChirpyConfig).audio_cache_max_age_days : ℚ))
        * 24 * 3600) ∧
    get_cached_audio 172800 [⟨"k.mp3", 0, 10, true, true⟩] "k" =
      Except.ok (some ⟨"k.mp3", 0, 10, true, true⟩, [⟨"k.mp3", 0, 10, true, true⟩]) ∧
    cleanup_expired_cache ({ audio_cache_max_age_days := 1 } : ChirpyConfig) 172800
      [⟨"k.mp3", 0, 10, true, true⟩] = [] := by
  refine ⟨by norm_num, ?_, ?_⟩
  · simp [get_cached_audio, List.find?]
    norm_num
  · simp [cleanup_expired_cache, isMp3]
    norm_num

/-- **C2** (amended): `get` returns the stored payload iff the file
exists and its age is below a *hardcoded* 30 days (not the configured
`audio_cache_max_age_days`); an older file is unlinked by `get` and
treated as absent; `sweepExpired` keeps exactly the (fault-free `*.mp3`)
files whose age does not exceed the *configured* max age.  A file
younger than both bounds therefore survives both. -/
theorem lazy_and_proactive_expiration (cfg : ChirpyConfig) (now : ℚ)
    (dir : List CacheFile) (key : String) (f : CacheFile)
    (hfind : dir.find? (fun g => g.name = key ++ ".mp3") = some f)
    (hok : f.statOk = true) :
    (now - f.mtime < 30 * 24 * 3600 →
      get_cached_audio now dir key = Except.ok (some f, dir)) ∧
    (f.unlinkOk = true → ¬ now - f.mtime < 30 * 24 * 3600 →
      get_cached_audio now dir key =
        Except.ok (none, dir.filter (fun g => g.name ≠ key ++ ".mp3"))) ∧
    (∀ g ∈ dir, isMp3 g = true → g.statOk = true → g.unlinkOk = true →
      (g ∈ cleanup_expired_cache cfg now dir ↔
        ¬ now - g.mtime > (cfg.audio_cache_max_age_days : ℚ) * 24 * 3600)) := by
  refine ⟨?_, ?_, ?_⟩
  · intro hlt
    simp [get_cached_audio, hfind, hok, hlt]
  · intro hunl hge
    simp [get_cached_audio, hfind, hok, hge, hunl]
  · intro g hg hmp3 hgok hgunl
    simp [cleanup_expired_cache, List.mem_filter, hg, hmp3, hgok, hgunl]

/-- **C2** witness: a one-minute-old file is returned by `get` and
survives the sweep under the default configuration. -/
theorem lazy_and_proactive_expiration_witness :
    get_cached_audio 60 [⟨"k.mp3", 0, 10, true, true⟩] "k" =
      Except.ok (some ⟨"k.mp3", 0, 10, true, true⟩, [⟨"k.mp3", 0, 10, true, true⟩]) ∧
    (⟨"k.mp3", 0, 10, true, true⟩ : CacheFile) ∈
      cleanup_expired_cache {} 60 [⟨"k.mp3", 0, 10, true, true⟩] := by
  have h := lazy_and_proactive_expiration {} 60 [⟨"k.mp3", 0, 10, true, true⟩] "k"
    ⟨"k.mp3", 0, 10, true, true⟩ (by simp [List.find?]) rfl
  refine ⟨h.1 (by norm_num), ?_⟩
  exact (h.2.2 ⟨"k.mp3", 0, 10, true, true⟩ (by simp) (by decide) rfl rfl).mpr
    (by norm_num)

/-- **C5** (counterexample): on a cache hit the provider makes no
network call, but it does *not* always return `True`: if
`_play_audio_file` raises (no working audio player), the outer handler
returns `False`.  Here the cache holds a fresh entry for
`("hello", nova, tts-1-hd, 1)` and playback fails. -/
theorem openai_cache_hit_play_failure_counterexample :
    openai_speak_text {} ⟨true, true, 7, true, false⟩ 0
        [⟨"hello|nova|tts-1-hd|1.mp3", 0, 5, true, true⟩] "hello" none =
      (false, [⟨"hello|nova|tts-1-hd|1.mp3", 0, 5, true, true⟩],
       [Ev.checkCache "hello|nova|tts-1-hd|1",
        Ev.play "hello|nova|tts-1-hd|1.mp3"]) := by
  have hkey : effective_cache_key {} "hello" none = "hello|nova|tts-1-hd|1" := rfl
  simp only [openai_speak_text, hkey]
  norm_num [get_cached_audio, List.find?, isBlank]
  decide

/-- **C5** (amended): within one paid-provider `speak_text` call the
cache check is the first effect (so it precedes any network call); on a
hit the cached file is played with no API call and the result is the
playback outcome (`True` iff playback does not raise); on a miss the
payload is saved to the cache *before* playback is attempted, and a
failure before or during synthesis (or of the cache write itself)
leaves the directory without the new artifact. -/
theorem openai_speak_order (cfg : ChirpyConfig) (env : OpenAIEnv) (now : ℚ)
    (dir : List CacheFile) (text : String) (voice : Option String)
    (hav : env.available = true) (ht : isBlank text = false) :
    ((openai_speak_text cfg env now dir text voice).2.2.head? =
      some (Ev.checkCache (effective_cache_key cfg text voice))) ∧
    (∀ f dir₁,
      get_cached_audio now dir (effective_cache_key cfg text voice) =
        Except.ok (some f, dir₁) →
      openai_speak_text cfg env now dir text voice =
        (env.playOk, dir₁,
         [Ev.checkCache (effective_cache_key cfg text voice), Ev.play f.name])) ∧
    (∀ dir₁,
      get_cached_audio now dir (effective_cache_key cfg text voice) =
        Except.ok (none, dir₁) →
      env.synthOk = false →
      openai_speak_text cfg env now dir text voice =
        (false, dir₁,
         [Ev.checkCache (effective_cache_key cfg text voice),
          Ev.apiCall (effective_model cfg) (effective_voice cfg voice) text
            (effective_format cfg) (effective_speed cfg)])) ∧
    (∀ dir₁,
      get_cached_audio now dir (effective_cache_key cfg text voice) =
        Except.ok (none, dir₁) →
      env.synthOk = true →
      save_to_cache cfg env.writeOk now dir₁ (effective_cache_key cfg text voice)
          env.synthSize = Except.error () →
      openai_speak_text cfg env now dir text voice =
        (false, dir₁,
         [Ev.checkCache (effective_cache_key cfg text voice),
          Ev.apiCall (effective_model cfg) (effective_voice cfg voice) text
            (effective_format cfg) (effective_speed cfg)])) ∧
    (∀ dir₁ cf dir₂,
      get_cached_audio now dir (effective_cache_key cfg text voice) =
        Except.ok (none, dir₁) →
      env.synthOk = true →
      save_to_cache cfg env.writeOk now dir₁ (effective_cache_key cfg text voice)
          env.synthSize = Except.ok (cf, dir₂) →
      openai_speak_text cfg env now dir text voice =
        (env.playOk, dir₂,
         [Ev.checkCache (effective_cache_key cfg text voice),
          Ev.apiCall (effective_model cfg) (effective_voice cfg voice) text
            (effective_format cfg) (effective_speed cfg),
          Ev.saveCache (effective_cache_key cfg text voice),
          Ev.play cf.name])) := by
  refine ⟨?_, ?_, ?_, ?_, ?_⟩
  · rcases h : get_cached_audio now dir (effective_cache_key cfg text voice) with
      he | ⟨of, dir₁⟩
    · simp [openai_speak_text, hav, ht, h]
    · rcases of with _ | f
      · rcases hs : env.synthOk with _ | _
        · simp [openai_speak_text, hav, ht, h, hs]
        · rcases hw : save_to_cache cfg env.writeOk now dir₁
              (effective_cache_key cfg text voice) env.synthSize with hww | ⟨cf, dir₂⟩
          · simp [openai_speak_text, hav, ht, h, hs, hw]
          · simp [openai_speak_text, hav, ht, h, hs, hw]
      · simp [openai_speak_text, hav, ht, h]
  · intro f dir₁ h
    simp [openai_speak_text, hav, ht, h]
  · intro dir₁ h hs
    simp [openai_speak_text, hav, ht, h, hs]
  · intro dir₁ h hs hw
    simp [openai_speak_text, hav, ht, h, hs, hw]
  · intro dir₁ cf dir₂ h hs hw
    simp [openai_speak_text, hav, ht, h, hs, hw]

/-- **C5** witness: a miss on an empty directory synthesizes, saves and
then plays — in that order — and the artifact is in the directory. -/
theorem openai_speak_order_witness :
    openai_speak_text {} ⟨true, true, 7, true, true⟩ 0 [] "hi" none =
      (true, [⟨effective_cache_key {} "hi" none ++ ".mp3", 0, 7, true, true⟩],
       [Ev.checkCache (effective_cache_key {} "hi" none),
        Ev.apiCall (effective_model {}) (effective_voice {} none) "hi"
          (effective_format {}) (effective_speed {}),
        Ev.saveCache (effective_cache_key {} "hi" none),
        Ev.play (effective_cache_key {} "hi" none ++ ".mp3")]) := by
  have h := (openai_speak_order {} ⟨true, true, 7, true, true⟩ 0 [] "hi" none
    rfl (by decide)).2.2.2.2 []
    ⟨effective_cache_key {} "hi" none ++ ".mp3", 0, 7, true, true⟩
    [⟨effective_cache_key {} "hi" none ++ ".mp3", 0, 7, true, true⟩]
    (by simp [get_cached_audio]) rfl ?_
  · exact h
  · show save_to_cache {} true 0 [] (effective_cache_key {} "hi" none) 7 = _
    simp only [save_to_cache, if_pos, List.filter_nil, List.nil_append,
      check_cache_size_limits, get_cache_size_mb]
    norm_num [isMp3, mbOf, cleanup_by_size, size_candidates, evict_loop]

/-- **C8** (counterexample): not every filesystem operation is
fault-tolerant.  The `open`/`write` in `_save_to_cache` is unguarded, so
a failing write raises out of `put`; and the `stat()` on line 116 of
`_get_cached_audio` sits outside the `try`, so a failing stat raises out
of `get`.  (Both are caught only by `speak_text`'s outer handler.) -/
theorem cache_ops_unguarded_counterexample :
    save_to_cache {} false 0 [] "k" 3 = Except.error () ∧
    get_cached_audio 0 [⟨"k.mp3", 0, 3, false, true⟩] "k" = Except.error () := by
  constructor
  · rfl
  · simp [get_cached_audio, List.find?]

/-- **C8** (amended): the batch operations — `sweepExpired`,
`evictToSize`, `stats`, `clear` — and the unlink inside `get` are
individually fault-tolerant: a failure on one file is skipped and never
prevents the operation from completing over the remaining files; but
`put`'s write and `get`'s stat are unguarded and propagate (see the
counterexample). -/
theorem cache_ops_fault_tolerance (cfg : ChirpyConfig) (now target : ℚ)
    (dir : List CacheFile) (f : CacheFile) (hf : f ∈ dir) :
    (isMp3 f = true → f.statOk = true → f.unlinkOk = true →
      now - f.mtime > (cfg.audio_cache_max_age_days : ℚ) * 24 * 3600 →
      f ∉ cleanup_expired_cache cfg now dir) ∧
    (f.unlinkOk = false → f ∈ cleanup_expired_cache cfg now dir) ∧
    (f.statOk = false → f ∈ cleanup_expired_cache cfg now dir) ∧
    (isMp3 f = true → f.unlinkOk = true → f ∉ (clear_cache dir).2) ∧
    (isMp3 f = true → f.unlinkOk = false → f ∈ (clear_cache dir).2) ∧
    ((get_cache_stats now dir).1 = (dir.filter (fun g => isMp3 g)).length) ∧
    (∀ cur rest, f.unlinkOk = false → ¬ cur ≤ target →
      evict_loop target cur (f :: rest) = evict_loop target cur rest) ∧
    (∀ key, dir.find? (fun g => g.name = key ++ ".mp3") = some f →
      f.statOk = true → f.unlinkOk = false → ¬ now - f.mtime < 30 * 24 * 3600 →
      get_cached_audio now dir key = Except.ok (none, dir)) := by
  refine ⟨?_, ?_, ?_, ?_, ?_, ?_, ?_, ?_⟩
  · intro h1 h2 h3 h4
    simp [cleanup_expired_cache, List.mem_filter, h1, h2, h3, h4, hf]
  · intro h1
    simp [cleanup_expired_cache, List.mem_filter, h1, hf]
  · intro h1
    simp [cleanup_expired_cache, List.mem_filter, h1, hf]
  · intro h1 h2
    simp [clear_cache, List.mem_filter, h1, h2, hf]
  · intro h1 h2
    simp [clear_cache, List.mem_filter, h1, h2, hf]
  · by_cases hz : (dir.filter (fun g => isMp3 g)).length = 0
    · simp [get_cache_stats, hz]
    · simp [get_cache_stats, hz]
  · intro cur rest h1 h2
    rw [evict_loop]
    simp [h1, h2]
  · intro key h1 h2 h3 h4
    simp [get_cached_audio, h1, h2, h3, h4]

/-- **C8** witness: in a directory where one file's unlink fails, the
sweep still removes the other, expired, removable file. -/
theorem cache_ops_fault_tolerance_witness :
    (⟨"a.mp3", 0, 1, true, true⟩ : CacheFile) ∉
      cleanup_expired_cache {} (100 * 24 * 3600)
        [⟨"bad.mp3", 0, 1, true, false⟩, ⟨"a.mp3", 0, 1, true, true⟩] ∧
    (⟨"bad.mp3", 0, 1, true, false⟩ : CacheFile) ∈
      cleanup_expired_cache {} (100 * 24 * 3600)
        [⟨"bad.mp3", 0, 1, true, false⟩, ⟨"a.mp3", 0, 1, true, true⟩] := by
  constructor
  · exact (cache_ops_fault_tolerance {} (100 * 24 * 3600) 0 _
      ⟨"a.mp3", 0, 1, true, true⟩ (by simp)).1 (by decide) rfl rfl (by norm_num)
  · exact (cache_ops_fault_tolerance {} (100 * 24 * 3600) 0 _
      ⟨"bad.mp3", 0, 1, true, false⟩ (by simp)).2.1 rfl

/-- Whether a file matches `*.mp3` depends only on its name. -/
theorem isMp3_name_eq {f g : CacheFile} (h : f.name = g.name) :
    isMp3 f = isMp3 g := by
  simp [isMp3, h]

/-- Every name returned by the eviction loop names a member of the
candidate list. -/
theorem evict_loop_mem_names (target : ℚ) :
    ∀ (l : List CacheFile) (cur : ℚ) (x : String), x ∈ evict_loop target cur l →
      ∃ f ∈ l, f.name = x := by
  intro l
  induction l with
  | nil =>
    intro cur x hx
    simp [evict_loop] at hx
  | cons f rest ih =>
    intro cur x hx
    rw [evict_loop] at hx
    by_cases h1 : cur ≤ target
    · simp [h1] at hx
    · rcases h2 : f.unlinkOk with _ | _ <;> simp [h1, h2] at hx
      · obtain ⟨g, hg, he⟩ := ih _ _ hx
        exact ⟨g, by simp [hg], he⟩
      · rcases hx with rfl | hx
        · exact ⟨f, by simp⟩
        · obtain ⟨g, hg, he⟩ := ih _ _ hx
          exact ⟨g, by simp [hg], he⟩

/-- **C10**: caching always reads and writes under the fixed `.mp3`
extension, independent of the configured audio format (which is only
forwarded to the synthesis API), and every cache operation enumerates
only `*.mp3` files — a non-`.mp3` file in the directory is never swept,
size-counted, evicted, cleared or stats-counted. -/
theorem cache_mp3_extension_invariant (cfg : ChirpyConfig) (now target : ℚ)
    (dir : List CacheFile) (g : CacheFile) (hg : g ∈ dir)
    (hmp3 : isMp3 g = false) (key fmt : String) (wOk : Bool) (n : ℕ) :
    (∀ cf dir', save_to_cache cfg wOk now dir key n = Except.ok (cf, dir') →
      cf.name = key ++ ".mp3") ∧
    (save_to_cache { cfg with audio_format := fmt } wOk now dir key n =
      save_to_cache cfg wOk now dir key n) ∧
    (∀ res dir₁, get_cached_audio now dir key = Except.ok (res, dir₁) →
      (∀ cf, res = some cf → cf.name = key ++ ".mp3") ∧
      (g.name ≠ key ++ ".mp3" → g ∈ dir₁)) ∧
    (g ∈ cleanup_expired_cache cfg now dir) ∧
    (get_cache_size_mb dir = get_cache_size_mb (dir.filter (fun f => isMp3 f))) ∧
    (g ∈ cleanup_by_size target dir) ∧
    (g ∈ check_cache_size_limits cfg dir) ∧
    (g ∈ (clear_cache dir).2) ∧
    ((get_cache_stats now dir).1 =
      (get_cache_stats now (dir.filter (fun f => isMp3 f))).1) := by
  have hsize : ∀ t : ℚ, g ∈ cleanup_by_size t dir := by
    intro t
    simp only [cleanup_by_size, List.mem_filter]
    refine ⟨hg, ?_⟩
    simp only [decide_eq_true_eq]
    intro hmem
    obtain ⟨f, hf, hfe⟩ := evict_loop_mem_names _ _ _ _ hmem
    have hf' : f ∈ (dir.filter (fun h => isMp3 h && h.statOk)) := by
      simpa [size_candidates] using hf
    have hft : isMp3 f = true := by
      have h2 := (List.mem_filter.mp hf').2
      simp only [Bool.and_eq_true] at h2
      exact h2.1
    rw [isMp3_name_eq hfe] at hft
    exact absurd hft (by simp [hmp3])
  refine ⟨?_, ?_, ?_, ?_, ?_, hsize target, ?_, ?_, ?_⟩
  · intro cf dir' h
    rcases hw : wOk with _ | _ <;> rw [hw] at h <;> simp [save_to_cache] at h
    exact h.1 ▸ rfl
  · rfl
  · intro res dir₁ h
    rcases hfind : dir.find? (fun f => f.name = key ++ ".mp3") with _ | f₀
    · simp [get_cached_audio, hfind] at h
      obtain ⟨rfl, rfl⟩ := h
      exact ⟨by simp, fun _ => hg⟩
    · have hname : f₀.name = key ++ ".mp3" := by
        have := List.find?_some hfind
        simpa using this
      rcases hst : f₀.statOk with _ | _
      · simp [get_cached_audio, hfind, hst] at h
      · by_cases hfresh : now - f₀.mtime < 30 * 24 * 3600
        · simp [get_cached_audio, hfind, hst, hfresh] at h
          obtain ⟨rfl, rfl⟩ := h
          refine ⟨?_, fun _ => hg⟩
          intro cf hcf
          injection hcf with hcf'
          exact hcf' ▸ hname
        · rcases hu : f₀.unlinkOk with _ | _ <;>
            simp [get_cached_audio, hfind, hst, hfresh, hu] at h
          · obtain ⟨rfl, rfl⟩ := h
            exact ⟨by simp, fun _ => hg⟩
          · obtain ⟨rfl, rfl⟩ := h
            refine ⟨by simp, fun hne => ?_⟩
            simp [List.mem_filter, hg, hne]
  · simp [cleanup_expired_cache, List.mem_filter, hg, hmp3]
  · have hdup : ∀ f : CacheFile,
        ((isMp3 f && f.statOk) && isMp3 f) = (isMp3 f && f.statOk) := by
      intro f
      cases hq : isMp3 f <;> cases hr : f.statOk <;> rfl
    simp [get_cache_size_mb, List.filter_filter, hdup]
  · simp only [check_cache_size_limits]
    by_cases hc : get_cache_size_mb dir >
        (cfg.audio_cache_max_size_mb : ℚ) * cfg.audio_cache_cleanup_threshold
    · simpa [hc] using hsize (cfg.audio_cache_max_size_mb : ℚ)
    · simpa [hc] using hg
  · simp [clear_cache, List.mem_filter, hg, hmp3]
  · simp [get_cache_stats, List.filter_filter]

/-- **C10** witness: a stray `notes.txt` in the cache directory is
untouched by the sweep. -/
theorem cache_mp3_extension_invariant_witness :
    (⟨"notes.txt", 0, 1, true, true⟩ : CacheFile) ∈
      cleanup_expired_cache {} (100 * 24 * 3600)
        [⟨"notes.txt", 0, 1, true, true⟩] :=
  (cache_mp3_extension_invariant {} (100 * 24 * 3600) 0
    [⟨"notes.txt", 0, 1, true, true⟩] ⟨"notes.txt", 0, 1, true, true⟩
    (by simp) (by decide) "k" "wav" true 3).2.2.2.1

theorem mbOf_cons (f : CacheFile) (l : List CacheFile) :
    mbOf (f :: l) = (f.size : ℚ) / (1024 * 1024) + mbOf l := by
  simp [mbOf, add_div]

/-- The deletion loop removes exactly a prefix of the (sorted) candidate
list: the shortest prefix whose removal brings the remaining size to or
below the target. -/
theorem evict_loop_take (target : ℚ) :
    ∀ (l : List CacheFile), (∀ f ∈ l, f.unlinkOk = true) →
      ∃ k, k ≤ l.length ∧
        evict_loop target (mbOf l) l = ((l.take k).map fun f => f.name) ∧
        (∀ j, j < k → target < mbOf (l.drop j)) ∧
        (k < l.length → mbOf (l.drop k) ≤ target) := by
  intro l
  induction l with
  | nil =>
    refine fun _ => ⟨0, by simp, by simp [evict_loop], fun j hj => by omega, by simp⟩
  | cons f rest ih =>
    intro hok
    by_cases hstop : mbOf (f :: rest) ≤ target
    · refine ⟨0, by simp, ?_, fun j hj => by omega, fun _ => by simpa using hstop⟩
      rw [evict_loop]
      simp [hstop]
    · have hf : f.unlinkOk = true := hok f (by simp)
      obtain ⟨k, hk, heq, hcond, hstop'⟩ := ih (fun g hg => hok g (by simp [hg]))
      have harith : mbOf (f :: rest) - (f.size : ℚ) / (1024 * 1024) = mbOf rest := by
        rw [mbOf_cons]
        ring
      refine ⟨k + 1, by simpa using hk, ?_, ?_, ?_⟩
      · rw [evict_loop]
        simp only [hstop, if_false, hf, if_true, harith, heq]
        simp
      · intro j hj
        cases j with
        | zero => simpa using lt_of_not_le hstop
        | succ j' => simpa using hcond j' (by omega)
      · intro hlt
        simpa using hstop' (by simpa using hlt)

/-- The sort preamble of `_cleanup_by_size` orders candidates by
ascending modification time. -/
theorem size_candidates_sorted (dir : List CacheFile) :
    (size_candidates dir).Pairwise (fun a b => a.mtime ≤ b.mtime) := by
  have h : (size_candidates dir).Pairwise
      (fun a b : CacheFile => (decide (a.mtime ≤ b.mtime)) = true) :=
    List.sorted_mergeSort
      (fun a b c hab hbc => by
        simp only [decide_eq_true_eq] at hab hbc ⊢
        exact le_trans hab hbc)
      (fun a b => by simpa using le_total a.mtime b.mtime)
      (dir.filter (fun f => isMp3 f && f.statOk))
  exact h.imp (fun hab => by simpa using hab)

theorem drop_length_sub_one {α : Type} :
    ∀ (l : List α) (h : l ≠ []), l.drop (l.length - 1) = [l.getLast h]
  | [_], _ => rfl
  | x :: y :: ys, _ => by
    have h2 := drop_length_sub_one (y :: ys) (by simp)
    rw [List.getLast_cons (by simp)]
    simpa using h2

theorem getLast_mem_drop {α : Type} :
    ∀ (l : List α) (h : l ≠ []) (k : ℕ), k < l.length →
      l.getLast h ∈ l.drop k := by
  intro l
  induction l with
  | nil => intro h; simp at h
  | cons x xs ih =>
    intro h k hk
    cases k with
    | zero => exact List.getLast_mem h
    | succ k' =>
      have hxs : xs ≠ [] := by
        intro he
        rw [he] at hk
        simp at hk
      rw [List.drop_succ_cons, List.getLast_cons hxs]
      exact ih hxs k' (by simpa using hk)

/-- `cleanup_by_size` unfolded through `mbOf`. -/
theorem cleanup_by_size_eq (target : ℚ) (dir : List CacheFile) :
    cleanup_by_size target dir =
      dir.filter (fun f =>
        ¬ f.name ∈ evict_loop target (mbOf (size_candidates dir))
          (size_candidates dir)) := rfl

/-- The candidate names inherit nodup from the directory names. -/
theorem size_candidates_names_nodup (dir : List CacheFile)
    (hnames : (dir.map fun f => f.name).Nodup) :
    ((size_candidates dir).map fun f => f.name).Nodup := by
  have hperm : List.Perm (size_candidates dir)
      (dir.filter (fun f => isMp3 f && f.statOk)) :=
    List.mergeSort_perm _ _
  have hsub : List.Sublist
      ((dir.filter (fun f => isMp3 f && f.statOk)).map (fun f => f.name))
      (dir.map (fun f => f.name)) := (List.filter_sublist dir).map _
  exact ((hperm.map _).nodup_iff).mpr (hnames.sublist hsub)

/-- **C4**: size-based eviction triggers exactly when the current cache
size exceeds `max_size_mb * cleanup_threshold` and then evicts to the
full `max_size_mb` target; the eviction removes a minimal *prefix* of
the candidates sorted by ascending mtime (oldest first), stopping as
soon as the cumulative remaining size is at or below the target, so the
newest file survives whenever it alone fits within the target. -/
theorem size_eviction_policy (cfg : ChirpyConfig) (target : ℚ)
    (dir : List CacheFile) (hok : ∀ f ∈ dir, f.unlinkOk = true)
    (hnames : (dir.map fun f => f.name).Nodup) :
    (¬ get_cache_size_mb dir >
        (cfg.audio_cache_max_size_mb : ℚ) * cfg.audio_cache_cleanup_threshold →
      check_cache_size_limits cfg dir = dir) ∧
    (get_cache_size_mb dir >
        (cfg.audio_cache_max_size_mb : ℚ) * cfg.audio_cache_cleanup_threshold →
      check_cache_size_limits cfg dir =
        cleanup_by_size (cfg.audio_cache_max_size_mb : ℚ) dir) ∧
    (size_candidates dir).Pairwise (fun a b => a.mtime ≤ b.mtime) ∧
    (∃ k, k ≤ (size_candidates dir).length ∧
      evict_loop target (mbOf (size_candidates dir)) (size_candidates dir) =
        (((size_candidates dir).take k).map fun f => f.name) ∧
      (∀ j, j < k → target < mbOf ((size_candidates dir).drop j)) ∧
      (k < (size_candidates dir).length →
        mbOf ((size_candidates dir).drop k) ≤ target)) ∧
    (∀ h : (size_candidates dir ≠ []),
      ((((size_candidates dir).getLast h).size : ℚ) / (1024 * 1024) ≤ target →
        (size_candidates dir).getLast h ∈ cleanup_by_size target dir)) := by
  have hokc : ∀ f ∈ size_candidates dir, f.unlinkOk = true := by
    intro f hf
    apply hok
    have hmem : f ∈ dir.filter (fun g => isMp3 g && g.statOk) := by
      simpa [size_candidates] using hf
    exact (List.mem_filter.mp hmem).1
  obtain ⟨k, hk, heq, hcond, hstop⟩ := evict_loop_take target (size_candidates dir) hokc
  refine ⟨?_, ?_, size_candidates_sorted dir, ⟨k, hk, heq, hcond, hstop⟩, ?_⟩
  · intro hc
    simp only [check_cache_size_limits]
    rw [if_neg hc]
  · intro hc
    simp only [check_cache_size_limits]
    rw [if_pos hc]
  · intro hne hfit
    have hkl : k < (size_candidates dir).length := by
      rcases lt_or_eq_of_le hk with h1 | h1
      · exact h1
      · exfalso
        have hlpos : 0 < (size_candidates dir).length := List.length_pos.mpr hne
        have hj := hcond ((size_candidates dir).length - 1) (by omega)
        rw [drop_length_sub_one _ hne] at hj
        have : mbOf [(size_candidates dir).getLast hne] =
            (((size_candidates dir).getLast hne).size : ℚ) / (1024 * 1024) := by
          simp [mbOf]
        rw [this] at hj
        exact absurd hfit (not_le.mpr hj)
    have hmemdrop : (size_candidates dir).getLast hne ∈
        (size_candidates dir).drop k := getLast_mem_drop _ hne k hkl
    have hnd : ((size_candidates dir).map fun f => f.name).Nodup :=
      size_candidates_names_nodup dir hnames
    have hsplit : (size_candidates dir).map (fun f => f.name) =
        (((size_candidates dir).take k).map fun f => f.name) ++
          (((size_candidates dir).drop k).map fun f => f.name) := by
      rw [← List.map_append, List.take_append_drop]
    rw [hsplit] at hnd
    have hdisj := List.disjoint_of_nodup_append hnd
    have hin : ((size_candidates dir).getLast hne).name ∈
        ((size_candidates dir).drop k).map fun f => f.name :=
      List.mem_map_of_mem _ hmemdrop
    have hnotin : ¬ ((size_candidates dir).getLast hne).name ∈
        (((size_candidates dir).take k).map fun f => f.name) :=
      fun hx => hdisj hx hin
    have hlastdir : (size_candidates dir).getLast hne ∈ dir := by
      have h1 : (size_candidates dir).getLast hne ∈ size_candidates dir :=
        List.getLast_mem hne
      simp only [size_candidates, List.mem_mergeSort] at h1
      exact (List.mem_filter.mp h1).1
    rw [cleanup_by_size_eq, List.mem_filter]
    refine ⟨hlastdir, ?_⟩
    rw [heq]
    simpa using hnotin

/-- **C4** witness: a two-file directory is sorted oldest-first by the
eviction preamble. -/
theorem size_eviction_policy_witness :
    (size_candidates [⟨"a.mp3", 3, 1048576, true, true⟩,
        ⟨"b.mp3", 1, 1048576, true, true⟩]).Pairwise
      (fun a b => a.mtime ≤ b.mtime) :=
  (size_eviction_policy {} 2
    [⟨"a.mp3", 3, 1048576, true, true⟩, ⟨"b.mp3", 1, 1048576, true, true⟩]
    (by decide) (by decide)).2.2.1

end Chirpy
